import Mathlib

/-!
Verification of the `postgis` package recipe
(`var/spack/repos/builtin/packages/postgis/package.py`).

The recipe is shallowly embedded: pure data (the version table, the
configure flags) is transcribed literally; the conditional patch is a pure
function on a tokenized text; the ephemeral PostgreSQL session
(`Postgis.postgresql`, a `contextlib.contextmanager`) is modelled as an
executable function from the outcomes of the external calls (`pg_ctl init`,
`pg_ctl start`, the caller body, `pg_ctl stop`) to the list of performed
actions together with the propagating error, following Python semantics of
`with tempfile.TemporaryDirectory()` enclosing a `try`/`finally` block
(an exception raised in a `finally` while another is in flight propagates
itself and keeps the original as its `__context__` chain).
-/

namespace Postgis

/-- The declared `version(...)` table: (version string, sha256). -/
def versionTable : List (String × String) :=
  [("3.1.2", "2cdd3760176926704b4eb25ff3357543c9637dee74425a49082906857c7e0732"),
   ("3.0.1", "5a5432f95150d9bae9215c6d1c7bb354e060482a7c379daa9b8384e1d03e6353"),
   ("3.0.0", "c06fd2cd5cea0119106ffe17a7235d893c2bbe6f4b63c8617c767630973ba594"),
   ("2.5.3", "72e8269d40f981e22fb2b78d3ff292338e69a4f5166e481a77b015e1d34e559a")]

/-- A 64-character lowercase hexadecimal string. -/
def isSha256Hex (s : String) : Bool :=
  s.length == 64 && s.data.all (fun c => c.isDigit || ('a' ≤ c && c ≤ 'f'))

/-! ## Versions and the conditional patch

Spack versions are modelled as lists of numeric components; ordering is
lexicographic (`3.1 < 3.1.1 < 3.1.2`), as Spack orders numeric versions.
An upper range endpoint such as `@:3.1.1` is inclusive and, per Spack
range semantics, also admits versions extending the endpoint
(`3.1.1.x` satisfies `@:3.1.1`). -/

/-- Lexicographic order on numeric version component lists. -/
def verLE : List Nat → List Nat → Bool
  | [], _ => true
  | _ :: _, [] => false
  | a :: as, b :: bs => if a < b then true else if b < a then false else verLE as bs

/-- `v` satisfies the range `@:hi` (upper endpoint inclusive, with
endpoint sub-versions admitted, as in Spack). -/
def satUpTo (v hi : List Nat) : Bool :=
  verLE v hi || hi.isPrefixOf v

/-- `v` satisfies the range `@lo:` (lower endpoint inclusive). -/
def satFrom (v lo : List Nat) : Bool :=
  verLE lo v

/-- The guard of `Postgis.patch`: `self.spec.satisfies("@:3.1.1 ^proj@8:")`. -/
def patchFires (pkgVer projVer : List Nat) : Bool :=
  satUpTo pkgVer [3, 1, 1] && satFrom projVer [8]

/-- Modelled from the spec: `filter_file` (Spack framework helper, not under
`src/`) performs a pure textual substitution; here the configure script is
tokenized into words and the word-bounded pattern `\bpj_get_release\b`
replaces exactly the words equal to the pattern. -/
def filter_file (pat repl : String) (text : List String) : List String :=
  text.map (fun w => if w = pat then repl else w)

/-- `Postgis.patch`: rewrite `pj_get_release` to `proj_info` in `configure`
when the version guard holds, otherwise leave the text untouched. -/
def patch (pkgVer projVer : List Nat) (configureText : List String) : List String :=
  if patchFires pkgVer projVer then
    filter_file "pj_get_release" "proj_info" configureText
  else configureText

/-! ## Configure flags -/

/-- The resolved build context `configure_args` reads: each dependency's
install location and the state of the `gui` variant. -/
structure BuildCtx where
  postgresql : String
  sfcgal : String
  libxml2 : String
  geos : String
  proj : String
  jsonc : String
  protobufc : String
  pcre : String
  gdal : String
  gui : Bool

/-- The nine unconditional flags of `Postgis.configure_args`, in source
order (`spec[dep].prefix.bin.join(tool)` is rendered as `dep/bin/tool`). -/
def baseFlags (s : BuildCtx) : List String :=
  ["--with-pgconfig=" ++ s.postgresql ++ "/bin/pg_config",
   "--with-sfcgal=" ++ s.sfcgal ++ "/bin/sfcgal-config",
   "--with-xml2config=" ++ s.libxml2 ++ "/bin/xml2-config",
   "--with-geosconfig=" ++ s.geos ++ "/bin/geos-config",
   "--with-projdir=" ++ s.proj,
   "--with-jsondir=" ++ s.jsonc,
   "--with-protobufdir=" ++ s.protobufc,
   "--with-pcredir=" ++ s.pcre,
   "--with-gdalconfig=" ++ s.gdal ++ "/bin/gdal-config"]

/-- `Postgis.configure_args`: the nine base flags, plus `--with-gui`
appended exactly when the `gui` variant is enabled. -/
def configure_args (s : BuildCtx) : List String :=
  let args := baseFlags s
  if s.gui then args ++ ["--with-gui"] else args

/-! ## Post-install hook -/

/-- A modification of the install tree. -/
inductive FsAction where
  | symlink (target : String) (linkPath : String)
deriving DecidableEq, Repr

/-- `Postgis.satisfy_sanity_check` (`@run_after("install")`): the list of
install-tree modifications it performs —
`os.symlink(self.spec["postgresql"].prefix, self.prefix.postgresql)`. -/
def satisfy_sanity_check (postgresqlHome selfHome : String) : List FsAction :=
  [FsAction.symlink postgresqlHome (selfHome ++ "/postgresql")]

/-! ## Ephemeral PostgreSQL session (`Postgis.postgresql`)

The context manager is modelled as a function of the outcomes of the four
external events — `pg_ctl init`, `pg_ctl start`, the caller's body, and
`pg_ctl stop` — each being either success (`none`) or an error label.
It returns the sequence of actions performed and the propagating outcome.
Errors propagate as chains (head = active exception, tail = its Python
`__context__` chain), so an exception raised by the `finally` clause while
the body's exception is in flight carries the body's exception as context.
`tempfile.TemporaryDirectory.__exit__` removes the directory on every exit
path of the `with` block. -/

/-- A propagating Python exception: the head is the active error label,
the tail is its implicit `__context__` chain. -/
def ErrChain := List String

/-- An observable action of the session. -/
inductive Action where
  | pgInit (dataDir : String) (opts : String)
  | pgStart (dataDir : String) (serverOpts : List String)
  | yieldBody (psqlBaseArgs : List String)
  | pgStop (dataDir : String)
  | removeTempDir (dataDir : String)
deriving DecidableEq, Repr

/-- Outcomes of the external calls and of the caller's body:
`none` is success, `some e` a raised error labelled `e`. -/
structure PgEnv where
  dataDir : String
  initErr : Option String
  startErr : Option String
  bodyErr : Option String
  stopErr : Option String

/-- The options the server is started with: `-o "-h '' -k {data_dir}"`,
i.e. TCP listening disabled (`-h` with empty host list) and the Unix
socket directory set to the private data directory. -/
def serverStartOpts (dataDir : String) : List String :=
  ["-h", "", "-k", dataDir]

/-- The yielded query callable, `functools.partial(psql, "-h", data_dir)`:
every call issues `psql -h data_dir <args>`. -/
def sessionPsql (dataDir : String) (args : List String) : List String :=
  ["-h", dataDir] ++ args

/-- Body of the `with tempfile.TemporaryDirectory()` block:
`init`; `start`; `try: yield psql-partial finally: stop`. -/
def postgresqlInner (env : PgEnv) : List Action × Option ErrChain :=
  match env.initErr with
  | some e => ([Action.pgInit env.dataDir "-A trust"], some [e])
  | none =>
    let acts0 := [Action.pgInit env.dataDir "-A trust",
                  Action.pgStart env.dataDir (serverStartOpts env.dataDir)]
    match env.startErr with
    | some e => (acts0, some [e])
    | none =>
      let acts1 := acts0 ++ [Action.yieldBody ["-h", env.dataDir], Action.pgStop env.dataDir]
      match env.stopErr with
      | none => (acts1, env.bodyErr.map (fun e => [e]))
      | some f => (acts1, some (f :: (env.bodyErr.map (fun e => [e])).getD []))

/-- `Postgis.postgresql`: the `TemporaryDirectory` scope encloses
`postgresqlInner`, and its `__exit__` removes the directory on every exit
path, re-raising whatever was propagating. -/
def postgresql (env : PgEnv) : List Action × Option ErrChain :=
  let (acts, res) := postgresqlInner env
  (acts ++ [Action.removeTempDir env.dataDir], res)

/-- Number of `pg_ctl stop` calls in a trace. -/
def countStops : List Action → Nat
  | [] => 0
  | Action.pgStop _ :: rest => countStops rest + 1
  | _ :: rest => countStops rest

/-- Number of temporary-directory removals in a trace. -/
def countRemoves : List Action → Nat
  | [] => 0
  | Action.removeTempDir _ :: rest => countRemoves rest + 1
  | _ :: rest => countRemoves rest

/-- Number of `pg_ctl init` calls in a trace. -/
def countInits : List Action → Nat
  | [] => 0
  | Action.pgInit _ _ :: rest => countInits rest + 1
  | _ :: rest => countInits rest

/-- Number of `pg_ctl start` calls in a trace. -/
def countStarts : List Action → Nat
  | [] => 0
  | Action.pgStart _ _ :: rest => countStarts rest + 1
  | _ :: rest => countStarts rest

/-- Whether the trace ever yields the query interface to the caller. -/
def yieldsBody : List Action → Bool
  | [] => false
  | Action.yieldBody _ :: _ => true
  | _ :: rest => yieldsBody rest

/-! ## Post-install verification (`Postgis.test_lib_version`) -/

/-- `needle` occurs as a contiguous run inside `hay`. -/
def containsSub (needle : List Char) : List Char → Bool
  | [] => needle.isEmpty
  | c :: rest => needle.isPrefixOf (c :: rest) || containsSub needle rest

/-- Modelled from the spec: `check_outputs` (Spack framework helper, not
under `src/`) asserts that the expected string occurs in the decoded
output, reporting a test failure (an error, not a swallowed condition)
on mismatch. -/
def check_outputs (expected actual : String) : Option String :=
  if containsSub expected.data actual.data then none
  else some ("Expected output to contain " ++ expected)

/-- `Postgis.test_lib_version`, given the package's own version string and
the server's reply function: issues `CREATE EXTENSION postgis` and then the
fixed version query, and checks the reply of the latter. Returns the psql
argument lists issued and the test outcome. -/
def test_lib_version (specVersion : String) (reply : List String → String) :
    List (List String) × Option String :=
  let createCmd := ["-c", "CREATE EXTENSION postgis", "postgres"]
  let versionCmd := ["-c", "SELECT PostGIS_Lib_Version()", "-t", "postgres"]
  ([createCmd, versionCmd], check_outputs specVersion (reply versionCmd))

/-! ## Theorems -/

/-- C8: in the declared version table every supported version string maps to
exactly one content hash (version strings are pairwise distinct), and each
declared hash is a 64-character lowercase hexadecimal string. -/
theorem versionTable_integrity :
    (versionTable.map Prod.fst).Nodup ∧
    ∀ p ∈ versionTable, isSha256Hex p.2 = true := by
  decide

/-- Witness for C8 at a concrete table entry. -/
theorem versionTable_integrity_witness :
    isSha256Hex "2cdd3760176926704b4eb25ff3357543c9637dee74425a49082906857c7e0732" = true :=
  versionTable_integrity.2
    ("3.1.2", "2cdd3760176926704b4eb25ff3357543c9637dee74425a49082906857c7e0732")
    (by decide)

/-- C2: the patch step rewrites the word `pj_get_release` to `proj_info` in
the configure text exactly when the package version satisfies `@:3.1.1` and
the proj dependency satisfies `@8:`; after a firing rewrite the pattern no
longer occurs, and for every other combination of the two versions the text
is returned unchanged. -/
theorem patch_rewrites_iff (pkgVer projVer : List Nat) (text : List String) :
    (satUpTo pkgVer [3, 1, 1] = true ∧ satFrom projVer [8] = true →
      patch pkgVer projVer text = filter_file "pj_get_release" "proj_info" text ∧
      "pj_get_release" ∉ patch pkgVer projVer text) ∧
    (¬(satUpTo pkgVer [3, 1, 1] = true ∧ satFrom projVer [8] = true) →
      patch pkgVer projVer text = text) := by
  constructor
  · rintro ⟨h1, h2⟩
    have hf : patchFires pkgVer projVer = true := by
      simp [patchFires, h1, h2]
    refine ⟨by simp [patch, hf], ?_⟩
    simp only [patch, hf, if_true, filter_file]
    intro hmem
    rcases List.mem_map.mp hmem with ⟨w, _, hw⟩
    by_cases hwp : w = "pj_get_release" <;> simp [hwp] at hw
  · intro h
    have hf : patchFires pkgVer projVer = false := by
      cases hpf : patchFires pkgVer projVer with
      | false => rfl
      | true => exact absurd (by simpa [patchFires, Bool.and_eq_true] using hpf) h
    simp [patch, hf]

/-- Witness for C2 at concrete versions: `3.1.0` with proj `8.1` fires the
rewrite, `3.1.2` with proj `8.1` leaves the text unchanged. -/
theorem patch_rewrites_iff_witness :
    patch [3, 1, 0] [8, 1] ["x", "pj_get_release"] =
      filter_file "pj_get_release" "proj_info" ["x", "pj_get_release"] ∧
    patch [3, 1, 2] [8, 1] ["x", "pj_get_release"] = ["x", "pj_get_release"] := by
  refine ⟨((patch_rewrites_iff [3, 1, 0] [8, 1] ["x", "pj_get_release"]).1
    ⟨by decide, by decide⟩).1, ?_⟩
  exact (patch_rewrites_iff [3, 1, 2] [8, 1] ["x", "pj_get_release"]).2 (by decide)

/-- C5: the textual substitution of the patch is idempotent — applying it
twice equals applying it once — because the replacement word `proj_info`
is not itself the replaced pattern. -/
theorem patch_substitution_idempotent (text : List String) :
    filter_file "pj_get_release" "proj_info"
        (filter_file "pj_get_release" "proj_info" text) =
      filter_file "pj_get_release" "proj_info" text ∧
    "pj_get_release" ∉ filter_file "pj_get_release" "proj_info" text := by
  constructor
  · unfold filter_file
    rw [List.map_map]
    apply List.map_congr_left
    intro w _
    by_cases hwp : w = "pj_get_release" <;> simp [Function.comp, hwp]
  · intro hmem
    rcases List.mem_map.mp hmem with ⟨w, _, hw⟩
    by_cases hwp : w = "pj_get_release" <;> simp [hwp] at hw

/-- Witness for C5 at a concrete text. -/
theorem patch_substitution_idempotent_witness :
    filter_file "pj_get_release" "proj_info"
        (filter_file "pj_get_release" "proj_info" ["x", "pj_get_release"]) =
      filter_file "pj_get_release" "proj_info" ["x", "pj_get_release"] :=
  (patch_substitution_idempotent ["x", "pj_get_release"]).1

/-- C3: `configure_args` yields the nine base flags in their fixed order,
followed by exactly one extra flag `--with-gui` in tenth position when the
`gui` variant is enabled, and nothing else when it is disabled; the list
length is 10 with gui and 9 without. -/
theorem configure_args_flag_count (s : BuildCtx) :
    (baseFlags s).length = 9 ∧
    (configure_args s).take 9 = baseFlags s ∧
    (s.gui = true →
      configure_args s = baseFlags s ++ ["--with-gui"] ∧
      (configure_args s).length = 10 ∧
      (configure_args s).get? 9 = some "--with-gui") ∧
    (s.gui = false →
      configure_args s = baseFlags s ∧ (configure_args s).length = 9) := by
  cases hg : s.gui <;>
    simp [configure_args, baseFlags, hg]

/-- Witness for C3 at concrete contexts with the gui variant enabled and
disabled. -/
theorem configure_args_flag_count_witness :
    (configure_args ⟨"a", "b", "c", "d", "e", "f", "g", "h", "i", true⟩).length = 10 ∧
    (configure_args ⟨"a", "b", "c", "d", "e", "f", "g", "h", "i", false⟩).length = 9 := by
  refine ⟨((configure_args_flag_count
    ⟨"a", "b", "c", "d", "e", "f", "g", "h", "i", true⟩).2.2.1 rfl).2.1, ?_⟩
  exact ((configure_args_flag_count
    ⟨"a", "b", "c", "d", "e", "f", "g", "h", "i", false⟩).2.2.2 rfl).2

/-- C7: the post-install hook performs exactly one install-tree
modification: a symbolic link at `prefix.postgresql` inside the package's
own install location whose target is the postgresql dependency's install
location. -/
theorem satisfy_sanity_check_single_symlink (pgHome selfHome : String) :
    satisfy_sanity_check pgHome selfHome =
      [FsAction.symlink pgHome (selfHome ++ "/postgresql")] ∧
    (satisfy_sanity_check pgHome selfHome).length = 1 :=
  ⟨rfl, rfl⟩

/-- Witness for C7 at concrete install locations. -/
theorem satisfy_sanity_check_single_symlink_witness :
    (satisfy_sanity_check "/opt/pg" "/opt/postgis").length = 1 :=
  (satisfy_sanity_check_single_symlink "/opt/pg" "/opt/postgis").2

/-- C6: the post-install verification issues the fixed query
`SELECT PostGIS_Lib_Version()` and succeeds exactly when the reply contains
the package's own version string as a substring; on mismatch it returns a
test failure rather than swallowing the condition. -/
theorem test_lib_version_checks_version (v : String) (reply : List String → String) :
    (test_lib_version v reply).1 =
      [["-c", "CREATE EXTENSION postgis", "postgres"],
       ["-c", "SELECT PostGIS_Lib_Version()", "-t", "postgres"]] ∧
    ((test_lib_version v reply).2 = none ↔
      containsSub v.data
        (reply ["-c", "SELECT PostGIS_Lib_Version()", "-t", "postgres"]).data = true) ∧
    (containsSub v.data
        (reply ["-c", "SELECT PostGIS_Lib_Version()", "-t", "postgres"]).data = false →
      ∃ msg, (test_lib_version v reply).2 = some msg) := by
  refine ⟨rfl, ?_, ?_⟩ <;>
    simp only [test_lib_version, check_outputs] <;>
    by_cases hc : containsSub v.data
      (reply ["-c", "SELECT PostGIS_Lib_Version()", "-t", "postgres"]).data = true <;>
    simp [hc]

/-- Witness for C6 at a concrete version and reply: a reply containing the
version passes, a reply missing it fails. -/
theorem test_lib_version_checks_version_witness :
    (test_lib_version "3.1.2" (fun _ => " 3.1.2")).2 = none ∧
    ∃ msg, (test_lib_version "3.1.2" (fun _ => " 2.5.3")).2 = some msg := by
  constructor
  · exact (test_lib_version_checks_version "3.1.2" (fun _ => " 3.1.2")).2.1.mpr (by decide)
  · exact (test_lib_version_checks_version "3.1.2" (fun _ => " 2.5.3")).2.2 (by decide)

/-- C1: once the session is established (init and start succeeded), every
exit path of the caller's body stops the server exactly once and removes
the private storage directory exactly once; a body error propagates
unsuppressed when the stop succeeds, and when the stop itself also fails
the propagating error keeps the body's error in its context chain while
the directory removal is still performed. -/
theorem postgresql_cleanup (env : PgEnv)
    (hInit : env.initErr = none) (hStart : env.startErr = none) :
    countStops (postgresql env).1 = 1 ∧
    countRemoves (postgresql env).1 = 1 ∧
    (env.stopErr = none → (postgresql env).2 = env.bodyErr.map (fun e => [e])) ∧
    (∀ e f, env.bodyErr = some e → env.stopErr = some f →
      (postgresql env).2 = some [f, e]) := by
  obtain ⟨d, i, s, b, st⟩ := env
  simp only at hInit hStart
  subst hInit hStart
  cases st <;> cases b <;>
    simp [postgresql, postgresqlInner, countStops, countRemoves]

/-- Witness for C1 at a concrete session whose body and stop both fail. -/
theorem postgresql_cleanup_witness :
    countStops (postgresql ⟨"/tmp/d", none, none, some "boom", some "stopfail"⟩).1 = 1 ∧
    (postgresql ⟨"/tmp/d", none, none, some "boom", some "stopfail"⟩).2 =
      some ["stopfail", "boom"] := by
  have h := postgresql_cleanup ⟨"/tmp/d", none, none, some "boom", some "stopfail"⟩ rfl rfl
  exact ⟨h.1, h.2.2.2 "boom" "stopfail" rfl rfl⟩

/-- C4: if `pg_ctl init` or `pg_ctl start` fails, the error propagates to
the caller as-is, the query interface is never yielded, and neither call is
retried (each appears at most once in the trace). -/
theorem postgresql_acquire_failure_fatal (env : PgEnv) :
    (∀ e, env.initErr = some e →
      (postgresql env).2 = some [e] ∧
      yieldsBody (postgresql env).1 = false ∧
      countInits (postgresql env).1 = 1 ∧
      countStarts (postgresql env).1 = 0) ∧
    (∀ e, env.initErr = none → env.startErr = some e →
      (postgresql env).2 = some [e] ∧
      yieldsBody (postgresql env).1 = false ∧
      countInits (postgresql env).1 = 1 ∧
      countStarts (postgresql env).1 = 1) := by
  obtain ⟨d, i, s, b, st⟩ := env
  constructor
  · rintro e rfl
    simp [postgresql, postgresqlInner, yieldsBody, countInits, countStarts]
  · rintro e rfl rfl
    simp [postgresql, postgresqlInner, yieldsBody, countInits, countStarts]

/-- Witness for C4 at concrete failing acquisitions. -/
theorem postgresql_acquire_failure_fatal_witness :
    (postgresql ⟨"/tmp/d", some "initfail", none, none, none⟩).2 = some ["initfail"] ∧
    (postgresql ⟨"/tmp/d", none, some "startfail", none, none⟩).2 = some ["startfail"] := by
  refine ⟨((postgresql_acquire_failure_fatal
    ⟨"/tmp/d", some "initfail", none, none, none⟩).1 "initfail" rfl).1, ?_⟩
  exact ((postgresql_acquire_failure_fatal
    ⟨"/tmp/d", none, some "startfail", none, none⟩).2 "startfail" rfl rfl).1

/-- C9: in an established session the server is started with TCP listening
disabled and the Unix socket directory set to the private data directory,
and the yielded callable is the psql client partially applied with the host
argument fixed to that same directory, so every query targets the private
filesystem endpoint. -/
theorem postgresql_private_endpoint (env : PgEnv)
    (hInit : env.initErr = none) (hStart : env.startErr = none) :
    (postgresql env).1 =
      [Action.pgInit env.dataDir "-A trust",
       Action.pgStart env.dataDir ["-h", "", "-k", env.dataDir],
       Action.yieldBody ["-h", env.dataDir],
       Action.pgStop env.dataDir,
       Action.removeTempDir env.dataDir] ∧
    (∀ args, sessionPsql env.dataDir args = ["-h", env.dataDir] ++ args) ∧
    serverStartOpts env.dataDir = ["-h", "", "-k", env.dataDir] := by
  obtain ⟨d, i, s, b, st⟩ := env
  simp only at hInit hStart
  subst hInit hStart
  refine ⟨?_, fun args => rfl, rfl⟩
  cases st <;> simp [postgresql, postgresqlInner, serverStartOpts]

/-- Witness for C9 at a concrete session. -/
theorem postgresql_private_endpoint_witness :
    (postgresql ⟨"/tmp/d", none, none, none, none⟩).1 =
      [Action.pgInit "/tmp/d" "-A trust",
       Action.pgStart "/tmp/d" ["-h", "", "-k", "/tmp/d"],
       Action.yieldBody ["-h", "/tmp/d"],
       Action.pgStop "/tmp/d",
       Action.removeTempDir "/tmp/d"] ∧
    sessionPsql "/tmp/d" ["-c", "SELECT 1"] = ["-h", "/tmp/d", "-c", "SELECT 1"] := by
  have h := postgresql_private_endpoint ⟨"/tmp/d", none, none, none, none⟩ rfl rfl
  exact ⟨h.1, h.2.1 ["-c", "SELECT 1"]⟩

/-- C10: if `pg_ctl stop` fails in the release phase, the private temporary
directory is still removed — the removal is the final action of the trace,
performed by the enclosing temporary-directory scope — while the stop
failure propagates (with any body error kept as context). -/
theorem postgresql_removes_dir_on_stop_failure (env : PgEnv)
    (hInit : env.initErr = none) (hStart : env.startErr = none)
    (f : String) (hStop : env.stopErr = some f) :
    countRemoves (postgresql env).1 = 1 ∧
    (postgresql env).1.getLast? = some (Action.removeTempDir env.dataDir) ∧
    (postgresql env).2 = some (f :: (env.bodyErr.map (fun e => [e])).getD []) := by
  obtain ⟨d, i, s, b, st⟩ := env
  simp only at hInit hStart hStop
  subst hInit hStart hStop
  cases b <;> simp [postgresql, postgresqlInner, countRemoves]

/-- Witness for C10 at a concrete session whose stop fails. -/
theorem postgresql_removes_dir_on_stop_failure_witness :
    countRemoves (postgresql ⟨"/tmp/d", none, none, none, some "stopfail"⟩).1 = 1 ∧
    (postgresql ⟨"/tmp/d", none, none, none, some "stopfail"⟩).1.getLast? =
      some (Action.removeTempDir "/tmp/d") := by
  have h := postgresql_removes_dir_on_stop_failure
    ⟨"/tmp/d", none, none, none, some "stopfail"⟩ rfl rfl "stopfail" rfl
  exact ⟨h.1, h.2.1⟩

end Postgis
